import Mathlib

/-! # A simple shell (shell.c): shallow embedding and verified properties

The interpreter of `shell.c` is embedded as pure functions over an explicit process state
(`Proc`: working directory, environment, SIGINT disposition).  Every function returns a `Res`:
the list of observable events it performed, the state it left, and how control left it
(`Ctl`: ordinary return, `exit(status)`, or replacement of the program image).

The operating system is not part of the source.  The outcome of each system call is supplied
from outside (the `ChildCalls`, `Ext` and `World` records) and is converted to the C return
value the source then tests, so every `if (x < 0)` of the source is an `if` here.
-/

namespace Shell

/-! ## Data model -/

/-- The `struct command` of shell.h as the source uses it: the NULL-terminated argument vector
`args` and the two optional redirection targets (`NULL` is `none`). -/
structure command where
  args : List String
  in_redir : Option String
  out_redir : Option String
deriving DecidableEq

/-- Disposition of a signal: default action, ignored, or a user handler. -/
inductive Disposition where
  | SIG_DFL
  | SIG_IGN
  | handler (h : Nat)
deriving DecidableEq

/-- Process-wide ambient state of the interpreter. -/
structure Proc where
  cwd : String
  env : List (String × String)
  sigint : Disposition
deriving DecidableEq

/-- Flags passed to `open`. -/
inductive OFlag where
  | O_RDONLY
  | O_WRONLY
  | O_CREAT
  | O_TRUNC
deriving DecidableEq

/-- Observable actions of a process, in program order. -/
inductive Event where
  /-- The prompt written by printPrompt. -/
  | prompt
  /-- One call of fgets on the input stream. -/
  | fgets
  /-- A call of parse_command on the line read. -/
  | parse_command (line : String)
  /-- A call of free_command. -/
  | free_command
  /-- Entry into changeDirectory. -/
  | changeDirectory
  /-- Entry into setEnvironment. -/
  | setEnvironment
  /-- Entry into callExternal. -/
  | callExternal
  /-- A diagnostic written by perror with the given message. -/
  | perror (msg : String)
  /-- Text written to the error stream by fprintf. -/
  | stderr (text : String)
  | chdir (path : String)
  | setenv (name value : String) (overwrite : Int)
  | unsetenv (name : String)
  /-- A call of fork together with the value it returned in this process. -/
  | fork (ret : Int)
  | openFile (path : String) (flags : List OFlag) (mode : Nat)
  | dup2 (oldfd : Int) (newfd : Int)
  | execvp (file : Option String) (argv : List String)
  | signalSIGINT (d : Disposition)
  /-- A blocking waitpid on `pid`; `during` is the SIGINT disposition in force while blocked. -/
  | waitpid (pid : Int) (during : Disposition)
deriving DecidableEq

/-- How control leaves a piece of code. -/
inductive Ctl where
  /-- Fell off the end / returned to the caller. -/
  | ret
  /-- The process terminated through `exit(status)` (or `return status` from main). -/
  | exit (status : Nat)
  /-- The program image was replaced by execvp: this code never continues. -/
  | exec (file : Option String) (argv : List String)
deriving DecidableEq

/-- Result of running a piece of code: events, state left behind, and control outcome. -/
structure Res where
  trace : List Event
  st : Proc
  ctl : Ctl
deriving DecidableEq

/-- Sequencing of statements: the continuation runs only when the first part returned. -/
def Res.andThen (r : Res) (k : Proc → Res) : Res :=
  match r.ctl with
  | Ctl.ret => ⟨r.trace ++ (k r.st).trace, (k r.st).st, (k r.st).ctl⟩
  | _ => r

/-! ## The C library and kernel calls the source relies on

These follow POSIX; the wait-status macros are the ones of glibc's `bits/waitstatus.h`. -/

/-- The value of `getenv(name)`: the first binding of `name`, `none` for NULL. -/
def getenv : List (String × String) → String → Option String
  | [], _ => none
  | (k, v) :: rest, name => if k = name then some v else getenv rest name

/-- Removal of every binding of `name`. -/
def removeVar : List (String × String) → String → List (String × String)
  | [], _ => []
  | (k, v) :: rest, name =>
    if k = name then removeVar rest name else (k, v) :: removeVar rest name

/-- POSIX: setenv and unsetenv fail with EINVAL when the name is empty or contains `=`. -/
def validName (name : String) : Bool :=
  decide (name ≠ "") && !(name.toList.contains '=')

/-- POSIX `unsetenv(name)`: return value and new environment.  Removing an absent variable
succeeds.  (Memory exhaustion is not modelled.) -/
def unsetenv (env : List (String × String)) (name : String) : Int × List (String × String) :=
  if validName name then (0, removeVar env name) else (-1, env)

/-- POSIX `setenv(name, value, overwrite)`: return value and new environment.
(Memory exhaustion is not modelled.) -/
def setenv (env : List (String × String)) (name value : String) (overwrite : Int) :
    Int × List (String × String) :=
  if validName name then
    if overwrite = 0 ∧ (getenv env name).isSome then (0, env)
    else (0, (name, value) :: removeVar env name)
  else (-1, env)

/-- POSIX `chdir(path)`: `resolve cwd path` is the directory that `path` names when looked up
from `cwd`, or `none` when the lookup fails (missing, not a directory, no permission).
On failure the working directory is left as it was. -/
def chdir (resolve : String → String → Option String) (st : Proc) (path : String) :
    Int × Proc :=
  match resolve st.cwd path with
  | some dir => (0, { st with cwd := dir })
  | none => (-1, st)

/-- The call `signal(SIGINT, d)`: installs `d` (the previous disposition, which is the return
value, is discarded by the source). -/
def signalSIGINT (st : Proc) (d : Disposition) : Proc :=
  { st with sigint := d }

/-- Wait-status macro `WTERMSIG(status)`: `status & 0x7f`. -/
def WTERMSIG (status : Nat) : Nat := status &&& 0x7f

/-- Wait-status macro `WEXITSTATUS(status)`: `(status & 0xff00) >> 8`. -/
def WEXITSTATUS (status : Nat) : Nat := (status &&& 0xff00) >>> 8

/-- Wait-status macro `WIFEXITED(status)`: `WTERMSIG(status) == 0`. -/
def WIFEXITED (status : Nat) : Bool := WTERMSIG status == 0

/-- Conversion of a value in 0..255 to `signed char`. -/
def toSignedChar (n : Nat) : Int :=
  if n % 256 < 128 then (n % 256 : Nat) else ((n % 256 : Nat) : Int) - 256

/-- Wait-status macro `WIFSIGNALED(status)`:
`((signed char) ((status & 0x7f) + 1) >> 1) > 0`. -/
def WIFSIGNALED (status : Nat) : Bool :=
  decide (toSignedChar ((status &&& 0x7f) + 1) >>> (1 : Nat) > 0)

/-! ## Built-ins (shell.c lines 129-205) -/

/-- The element `args[i]` of the NULL-terminated vector (`none` is NULL). -/
def arg (cmd : command) (i : Nat) : Option String := cmd.args.get? i

/-- The function `changeDirectory` of shell.c. -/
def changeDirectory (resolve : String → String → Option String) (cmd : command) (st : Proc) :
    Res :=
  match arg cmd 1 with
  | none =>
    match getenv st.env "HOME" with
    | some home =>
      let r := chdir resolve st home
      let chdirRetVal := r.1
      if chdirRetVal = -1 then
        ⟨[Event.chdir home, Event.perror "Error executing chdir()"], r.2, Ctl.ret⟩
      else
        ⟨[Event.chdir home], r.2, Ctl.ret⟩
    | none => ⟨[Event.perror "Error executing getenv()"], st, Ctl.ret⟩
  | some a1 =>
    let r := chdir resolve st a1
    let chdirRetVal := r.1
    if chdirRetVal = -1 then
      ⟨[Event.chdir a1, Event.perror "Error executing chdir()"], r.2, Ctl.ret⟩
    else
      ⟨[Event.chdir a1], r.2, Ctl.ret⟩

/-- The function `setEnvironment` of shell.c. -/
def setEnvironment (cmd : command) (st : Proc) : Res :=
  match arg cmd 1 with
  | none => ⟨[Event.perror "Error calling setenv command"], st, Ctl.ret⟩
  | some a1 =>
    match arg cmd 2 with
    | none =>
      let r := unsetenv st.env a1
      let unsetenvRetVal := r.1
      if unsetenvRetVal = -1 then
        ⟨[Event.unsetenv a1, Event.perror "Error executing unsetenv()"],
          { st with env := r.2 }, Ctl.ret⟩
      else
        ⟨[Event.unsetenv a1], { st with env := r.2 }, Ctl.ret⟩
    | some a2 =>
      let r := setenv st.env a1 a2 1
      let setenvRetVal := r.1
      if setenvRetVal = -1 then
        ⟨[Event.setenv a1 a2 1, Event.perror "Error executing setenv()"],
          { st with env := r.2 }, Ctl.ret⟩
      else
        ⟨[Event.setenv a1 a2 1], { st with env := r.2 }, Ctl.ret⟩

/-! ## External commands (shell.c lines 207-326) -/

/-- Outcomes of the system calls made by the child branch, as the kernel decides them. -/
structure ChildCalls where
  /-- The call `open(in_redir, O_RDONLY)`: the new descriptor, or `none` for failure. -/
  openIn : Option Nat
  /-- Whether `dup2(fd, 0)` succeeds. -/
  dupIn : Bool
  /-- The call `open(out_redir, O_WRONLY | O_CREAT | O_TRUNC)`: descriptor or failure. -/
  openOut : Option Nat
  /-- Whether `dup2(fd, 1)` succeeds. -/
  dupOut : Bool
  /-- Whether execvp replaces the program image. -/
  execOk : Bool
deriving DecidableEq

/-- C return value of `open`: the descriptor, or -1. -/
def openRet : Option Nat → Int
  | some fd => (fd : Int)
  | none => -1

/-- C return value of `dup2(oldfd, newfd)`: `newfd`, or -1. -/
def dup2Ret (ok : Bool) (newfd : Int) : Int :=
  if ok then newfd else -1

/-- C return value of `waitpid(pid, &status, 0)` and the value left in `exitStatus`
(initialised to 0 by the source): the pid and the delivered status, or -1. -/
def waitpidRet (pid : Int) : Option Nat → Int × Nat
  | some status => (pid, status)
  | none => (-1, 0)

/-- Lines 225-245: the input redirection block of the child. -/
def childInput (x : ChildCalls) (cmd : command) (st : Proc) : Res :=
  match cmd.in_redir with
  | none => ⟨[], st, Ctl.ret⟩
  | some path =>
    let infileDescriptor := openRet x.openIn
    if infileDescriptor < 0 then
      ⟨[Event.openFile path [OFlag.O_RDONLY] 0o666, Event.perror "Error executing open()"],
        st, Ctl.exit 4⟩
    else
      let newDescriptor := dup2Ret x.dupIn 0
      if newDescriptor < 0 then
        ⟨[Event.openFile path [OFlag.O_RDONLY] 0o666, Event.dup2 infileDescriptor 0,
          Event.perror "Error executing dup2()"], st, Ctl.exit 5⟩
      else
        ⟨[Event.openFile path [OFlag.O_RDONLY] 0o666, Event.dup2 infileDescriptor 0],
          st, Ctl.ret⟩

/-- Lines 246-267: the output redirection block of the child. -/
def childOutput (x : ChildCalls) (cmd : command) (st : Proc) : Res :=
  match cmd.out_redir with
  | none => ⟨[], st, Ctl.ret⟩
  | some path =>
    let outfileDescriptor := openRet x.openOut
    if outfileDescriptor < 0 then
      ⟨[Event.openFile path [OFlag.O_WRONLY, OFlag.O_CREAT, OFlag.O_TRUNC] 0o666,
        Event.perror "Error executing open()"], st, Ctl.exit 4⟩
    else
      let newDescriptor := dup2Ret x.dupOut 1
      if newDescriptor < 0 then
        ⟨[Event.openFile path [OFlag.O_WRONLY, OFlag.O_CREAT, OFlag.O_TRUNC] 0o666,
          Event.dup2 outfileDescriptor 1, Event.perror "Error executing dup2()"],
          st, Ctl.exit 5⟩
      else
        ⟨[Event.openFile path [OFlag.O_WRONLY, OFlag.O_CREAT, OFlag.O_TRUNC] 0o666,
          Event.dup2 outfileDescriptor 1], st, Ctl.ret⟩

/-- Lines 268-278: `execvp(args[0], args)`.  When the image is replaced nothing after the call
runs; when it is not, execvp returns -1 and the source tests `execRetVal == -1`. -/
def childExec (x : ChildCalls) (cmd : command) (st : Proc) : Res :=
  if x.execOk then
    ⟨[Event.execvp (arg cmd 0) cmd.args], st, Ctl.exec (arg cmd 0) cmd.args⟩
  else
    let execRetVal : Int := -1
    if execRetVal = -1 then
      ⟨[Event.execvp (arg cmd 0) cmd.args, Event.perror "Error executing exec()"],
        st, Ctl.exit 6⟩
    else
      ⟨[Event.execvp (arg cmd 0) cmd.args], st, Ctl.ret⟩

/-- Lines 222-279: the body of `if (forkRetVal == 0)`. -/
def childBranch (x : ChildCalls) (cmd : command) (st : Proc) : Res :=
  ((childInput x cmd st).andThen (childOutput x cmd)).andThen (childExec x cmd)

/-- Lines 309-323: the three independent `if`s that classify `exitStatus`. -/
def report (strsignal : Nat → String) (exitStatus : Nat) : List Event :=
  (if WIFEXITED exitStatus && WEXITSTATUS exitStatus == 0 then [] else []) ++
  (if WIFEXITED exitStatus && WEXITSTATUS exitStatus != 0 then
    [Event.stderr ("Command returned " ++ toString (WEXITSTATUS exitStatus) ++ "\n")]
   else []) ++
  (if WIFSIGNALED exitStatus then
    [Event.stderr ("Command killed: " ++ strsignal (WTERMSIG exitStatus) ++ "\n")]
   else [])

/-- Lines 282-325: the body of `if (forkRetVal > 0)`.  `wait` is what waitpid delivers:
`some status`, or `none` when waitpid fails. -/
def parentBranch (strsignal : Nat → String) (wait : Option Nat) (forkRetVal : Int)
    (st : Proc) : Res :=
  let st1 := signalSIGINT st Disposition.SIG_IGN
  let w := waitpidRet forkRetVal wait
  let processID := w.1
  let exitStatus := w.2
  let st2 := signalSIGINT st1 Disposition.SIG_DFL
  if processID < 0 then
    ⟨[Event.signalSIGINT Disposition.SIG_IGN, Event.waitpid forkRetVal st1.sigint,
      Event.signalSIGINT Disposition.SIG_DFL, Event.perror "Error executing waitpid()"],
      st2, Ctl.exit 7⟩
  else
    ⟨[Event.signalSIGINT Disposition.SIG_IGN, Event.waitpid forkRetVal st1.sigint,
      Event.signalSIGINT Disposition.SIG_DFL] ++ report strsignal exitStatus, st2, Ctl.ret⟩

/-- The function `callExternal` of shell.c as executed by ONE process: `forkRetVal` is the
value fork returned in that process (negative: failure, 0: the child, positive: the parent). -/
def callExternal (strsignal : Nat → String) (x : ChildCalls) (wait : Option Nat)
    (cmd : command) (forkRetVal : Int) (st : Proc) : Res :=
  if forkRetVal < 0 then
    ⟨[Event.fork forkRetVal, Event.perror "Error executing fork()"], st, Ctl.exit 3⟩
  else
    ((Res.mk [Event.fork forkRetVal] st Ctl.ret).andThen
      (fun s => if forkRetVal = 0 then childBranch x cmd s else ⟨[], s, Ctl.ret⟩)).andThen
      (fun s => if forkRetVal > 0 then parentBranch strsignal wait forkRetVal s
                else ⟨[], s, Ctl.ret⟩)

/-! ## Parent and child together -/

/-- How a process ends, as the kernel records it. -/
inductive ChildEnd where
  /-- Called `exit(code)` or returned `code` from main. -/
  | exited (code : Nat)
  /-- Killed by signal `sig`, with or without a core dump. -/
  | killed (sig : Nat) (core : Bool)
deriving DecidableEq

/-- The wait status the kernel delivers for an ended child (Linux encoding:
exit code in bits 8-15, terminating signal in bits 0-6, core flag in bit 7). -/
def waitStatus : ChildEnd → Nat
  | ChildEnd.exited code => (code % 256) * 256
  | ChildEnd.killed sig core => sig % 128 + (if core then 128 else 0)

/-- Everything the outside world decides about one external command. -/
structure Ext where
  /-- The call `fork()`: `none` for failure, `some p` for a child with pid `p + 1`. -/
  fork : Option Nat
  /-- The system calls of the child branch. -/
  calls : ChildCalls
  /-- How the child process ends once it is no longer running the child branch: the ending
  of the target program after a successful execvp. -/
  target : ChildEnd
  /-- Whether the parent's waitpid succeeds. -/
  waitOk : Bool
deriving DecidableEq

/-- The child process: callExternal with fork having returned 0. -/
def childRun (strsignal : Nat → String) (e : Ext) (cmd : command) (st : Proc) : Res :=
  callExternal strsignal e.calls none cmd 0 st

/-- The ending of the child process: its own exit status when it called exit, otherwise the
ending of the program it became. -/
def childEnd (strsignal : Nat → String) (e : Ext) (cmd : command) (st : Proc) : ChildEnd :=
  match (childRun strsignal e cmd st).ctl with
  | Ctl.exit status => ChildEnd.exited status
  | _ => e.target

/-- The C value fork returns in the parent. -/
def forkRet : Option Nat → Int
  | some p => (p : Int) + 1
  | none => -1

/-- The interpreter process: callExternal with fork having returned the child's pid (or -1),
and with waitpid delivering the status of the child's ending. -/
def parentRun (strsignal : Nat → String) (e : Ext) (cmd : command) (st : Proc) : Res :=
  callExternal strsignal e.calls
    (if e.waitOk then some (waitStatus (childEnd strsignal e cmd st)) else none)
    cmd (forkRet e.fork) st

/-! ## The session loop (shell.c lines 39-116) -/

/-- One call of `fgets(cmdline, MAX_INPUT, infile)`: the value returned (`none` is NULL) and
the stream's error and end-of-file indicators as `ferror` and `feof` report them afterwards. -/
structure Read where
  ret : Option String
  err : Bool
  eof : Bool
deriving DecidableEq

/-- What lies outside shell.c. -/
structure World where
  /-- The tokenizer `parse_command` declared in shell.h. -/
  parse_command : String → command
  /-- Directory lookup used by chdir. -/
  resolve : String → String → Option String
  /-- The C library's `strsignal`. -/
  strsignal : Nat → String
  /-- The outside world's decisions for the external command of the i-th loop iteration. -/
  ext : Nat → Ext

/-- The function `printPrompt`: prints only when reading from stdin. -/
def printPrompt (isStdin : Bool) : List Event :=
  if isStdin then [Event.prompt] else []

/-- Lines 84-108: the if/else-if chain on `args[0]`. -/
def dispatch (w : World) (i : Nat) (currentCmd : command) (st : Proc) : Res :=
  match arg currentCmd 0 with
  | none => ⟨[], st, Ctl.ret⟩
  | some a0 =>
    if a0 = "cd" then
      (Res.mk [Event.changeDirectory] st Ctl.ret).andThen (changeDirectory w.resolve currentCmd)
    else if a0 = "setenv" then
      (Res.mk [Event.setEnvironment] st Ctl.ret).andThen (setEnvironment currentCmd)
    else if a0 = "exit" then
      ⟨[], st, Ctl.exit 0⟩
    else
      (Res.mk [Event.callExternal] st Ctl.ret).andThen
        (parentRun w.strsignal (w.ext i) currentCmd)

/-- Lines 68-115: the `while (fgets(...) != NULL)` loop followed by `return 0`.  `reads` are
the successive fgets results; once they are used up the stream is at end of input and fgets
returns NULL.  `i` counts the iterations. -/
def loop (w : World) (isStdin : Bool) : List Read → Nat → Proc → Res
  | [], _, st => ⟨[Event.fgets], st, Ctl.exit 0⟩
  | r :: rest, i, st =>
    match r.ret with
    | none => ⟨[Event.fgets], st, Ctl.exit 0⟩
    | some cmdline =>
      if r.err then
        ⟨[Event.fgets, Event.perror "Error executing fgets()"], st, Ctl.exit 2⟩
      else if r.eof then
        ⟨[Event.fgets], st, Ctl.exit 0⟩
      else
        (((Res.mk [Event.fgets, Event.parse_command cmdline] st Ctl.ret).andThen
          (dispatch w i (w.parse_command cmdline))).andThen
          (fun s => ⟨Event.free_command :: printPrompt isStdin, s, Ctl.ret⟩)).andThen
          (loop w isStdin rest (i + 1))

/-- The function `main`: `argc` is the argument count, `fopenOk` tells whether
`fopen(argv[1], "r")` succeeds when it is called. -/
def main (w : World) (argc : Nat) (fopenOk : Bool) (reads : List Read) (st : Proc) : Res :=
  if argc < 2 then
    (Res.mk (printPrompt true) st Ctl.ret).andThen (loop w true reads 0)
  else if fopenOk then
    (Res.mk (printPrompt false) st Ctl.ret).andThen (loop w false reads 0)
  else
    ⟨[Event.perror "Error executing fopen()"], st, Ctl.exit 1⟩

/-- Events that put text on the error stream: the prompt, perror diagnostics, fprintf. -/
def writesStderr : Event → Bool
  | Event.prompt => true
  | Event.perror _ => true
  | Event.stderr _ => true
  | _ => false

/-- The sequence of writes to the error stream made during a run. -/
def errOutput (r : Res) : List Event := r.trace.filter writesStderr

/-! ## The child's steps as the specification words them

A second description of the child branch, written from the specification and compared with
`callExternal` below. -/

/-- One setup step of the child: the call it makes, whether that call succeeds, and the
diagnostic and exit status used when it does not. -/
structure Step where
  call : Event
  ok : Bool
  msg : String
  status : Nat

/-- The steps in the order the specification gives them: open the input redirect (if set,
read-only), replace descriptor 0, open the output redirect (if set, write-only, create,
truncate), replace descriptor 1, replace the program image with the arguments verbatim.
Open failures carry status 4, descriptor replacement 5, image replacement 6. -/
def childSteps (x : ChildCalls) (cmd : command) : List Step :=
  (match cmd.in_redir with
    | none => []
    | some path =>
      [⟨Event.openFile path [OFlag.O_RDONLY] 0o666, x.openIn.isSome,
          "Error executing open()", 4⟩,
       ⟨Event.dup2 (openRet x.openIn) 0, x.dupIn, "Error executing dup2()", 5⟩]) ++
  (match cmd.out_redir with
    | none => []
    | some path =>
      [⟨Event.openFile path [OFlag.O_WRONLY, OFlag.O_CREAT, OFlag.O_TRUNC] 0o666,
          x.openOut.isSome, "Error executing open()", 4⟩,
       ⟨Event.dup2 (openRet x.openOut) 1, x.dupOut, "Error executing dup2()", 5⟩]) ++
  [⟨Event.execvp (arg cmd 0) cmd.args, x.execOk, "Error executing exec()", 6⟩]

/-- Perform the steps in order and stop at the first failing one: the calls made (followed by
the diagnostic of the failing step) and the exit status of the failing step, `none` when
every step succeeded. -/
def runSteps : List Step → List Event × Option Nat
  | [] => ([], none)
  | s :: rest =>
    if s.ok then (s.call :: (runSteps rest).1, (runSteps rest).2)
    else ([s.call, Event.perror s.msg], some s.status)

/-- Calls that create or truncate a file: an open with O_CREAT or O_TRUNC. -/
def createsOrTruncates : Event → Bool
  | Event.openFile _ flags _ => flags.contains OFlag.O_CREAT || flags.contains OFlag.O_TRUNC
  | _ => false

/-- Events that mark which handler the dispatcher entered. -/
def isRoute : Event → Bool
  | Event.changeDirectory => true
  | Event.setEnvironment => true
  | Event.callExternal => true
  | _ => false

/-- Process creation. -/
def isFork : Event → Bool
  | Event.fork _ => true
  | _ => false

/-- The directory `cd` aims at, in the specification's words: `arguments[1]` when present,
otherwise the value of HOME (`none` when there is no argument and HOME is unset). -/
def cdTarget (cmd : command) (st : Proc) : Option String :=
  match arg cmd 1 with
  | some a1 => some a1
  | none => getenv st.env "HOME"

/-! ## A concrete world for the examples -/

/-- Blank-separated words of a line; `cur` holds the current word reversed. -/
def splitWords : List Char → List Char → List String
  | [], cur => if cur = [] then [] else [String.mk cur.reverse]
  | c :: cs, cur =>
    if c = ' ' ∨ c = '\t' ∨ c = '\n' then
      (if cur = [] then splitWords cs [] else String.mk cur.reverse :: splitWords cs [])
    else splitWords cs (c :: cur)

/-- Modelled from the spec: `parse_command`, which is declared in shell.h and defined outside
shell.c ("tokenizing a raw input line into a structured command").  Used only to build the
concrete examples: the blank-separated words of the line become the arguments, and no
redirection is recognised. -/
def sampleParse (line : String) : command :=
  ⟨splitWords line.toList [], none, none⟩

/-- A machine on which the only directories are /tmp and /home/user, no program can be
executed (execvp always fails), and fork, open, dup2 and waitpid always succeed. -/
def sampleWorld : World :=
  { parse_command := sampleParse
    resolve := fun _ path =>
      if path = "/tmp" then some "/tmp"
      else if path = "/home/user" then some "/home/user" else none
    strsignal := fun n => if n = 2 then "Interrupt" else "Unknown signal"
    ext := fun _ => ⟨some 99, ⟨some 3, true, some 4, true, false⟩, ChildEnd.exited 0, true⟩ }

/-- An initial interpreter state: started in /, HOME set, SIGINT at its default. -/
def sampleProc : Proc := ⟨"/", [("HOME", "/home/user")], Disposition.SIG_DFL⟩

/-- An ordinary newline-terminated line as fgets returns it: text, no error, no end of file. -/
def lineRead (text : String) : Read := ⟨some text, false, false⟩

/-- The constant `MAX_INPUT` of shell.c. -/
def MAX_INPUT : Nat := 512

/-- The character loop of the C library's fgets: `room` is the number of characters the
buffer can still take.  It stops when the buffer is full (without touching the stream again),
after storing a newline, or when it runs into the end of the stream.  Result: the characters
stored, the rest of the stream, and whether the end of the stream was hit. -/
def fgetsLoop : Nat → List Char → List Char × List Char × Bool
  | 0, cs => ([], cs, false)
  | _ + 1, [] => ([], [], true)
  | room + 1, c :: cs =>
    if c = '\n' then ([c], cs, false)
    else (c :: (fgetsLoop room cs).1, (fgetsLoop room cs).2.1, (fgetsLoop room cs).2.2)

/-- The call `fgets(buf, n, stream)` of the C library on a stream without read errors whose
unread content is `input` and whose position nothing else moves: the result of the call and
the content left unread.  NULL is returned when the end of the stream is hit before any
character was stored. -/
def fgets (n : Nat) (input : List Char) : Read × List Char :=
  if (fgetsLoop (n - 1) input).1 = [] ∧ (fgetsLoop (n - 1) input).2.2 = true then
    (⟨none, false, (fgetsLoop (n - 1) input).2.2⟩, (fgetsLoop (n - 1) input).2.1)
  else
    (⟨some (String.mk (fgetsLoop (n - 1) input).1), false, (fgetsLoop (n - 1) input).2.2⟩,
      (fgetsLoop (n - 1) input).2.1)

theorem WTERMSIG_eq_mod (status : Nat) : WTERMSIG status = status % 128 :=
  Nat.and_pow_two_sub_one_eq_mod status 7

theorem WIFEXITED_iff (status : Nat) : WIFEXITED status = true ↔ status % 128 = 0 := by
  simp [WIFEXITED, WTERMSIG_eq_mod]

theorem WIFSIGNALED_iff (status : Nat) :
    WIFSIGNALED status = true ↔ 1 ≤ status % 128 ∧ status % 128 ≤ 126 := by
  have hm : status &&& 0x7f = status % 128 := Nat.and_pow_two_sub_one_eq_mod status 7
  have hlt : status % 128 < 128 := Nat.mod_lt _ (by decide)
  unfold WIFSIGNALED toSignedChar
  rw [hm, decide_eq_true_iff, Int.shiftRight_eq_div_pow]
  split <;> omega

/-- A status is never both "exited" and "signaled". -/
theorem not_exited_of_signaled (status : Nat) (h : WIFSIGNALED status = true) :
    WIFEXITED status = false := by
  have h1 := (WIFSIGNALED_iff status).1 h
  cases hx : WIFEXITED status with
  | false => rfl
  | true =>
    have h2 := (WIFEXITED_iff status).1 hx
    omega

theorem report_exited_zero (strsignal : Nat → String) (status : Nat)
    (h1 : WIFEXITED status = true) (h2 : WEXITSTATUS status = 0) :
    report strsignal status = [] := by
  have h3 : WIFSIGNALED status = false := by
    cases hs : WIFSIGNALED status with
    | false => rfl
    | true => rw [not_exited_of_signaled status hs] at h1; cases h1
  simp [report, h1, h2, h3]

theorem report_exited_nonzero (strsignal : Nat → String) (status : Nat)
    (h1 : WIFEXITED status = true) (h2 : WEXITSTATUS status ≠ 0) :
    report strsignal status =
      [Event.stderr ("Command returned " ++ toString (WEXITSTATUS status) ++ "\n")] := by
  have h3 : WIFSIGNALED status = false := by
    cases hs : WIFSIGNALED status with
    | false => rfl
    | true => rw [not_exited_of_signaled status hs] at h1; cases h1
  simp [report, h1, h2, h3]

theorem report_signaled (strsignal : Nat → String) (status : Nat)
    (h : WIFSIGNALED status = true) :
    report strsignal status =
      [Event.stderr ("Command killed: " ++ strsignal (WTERMSIG status) ++ "\n")] := by
  simp [report, h, not_exited_of_signaled status h]

theorem report_neither (strsignal : Nat → String) (status : Nat)
    (h1 : WIFEXITED status = false) (h2 : WIFSIGNALED status = false) :
    report strsignal status = [] := by
  simp [report, h1, h2]

theorem report_all_stderr (strsignal : Nat → String) (status : Nat) :
    (report strsignal status).filter writesStderr = report strsignal status := by
  unfold report
  split <;> split <;> split <;> simp [writesStderr]

/-- The run of callExternal in the parent when waitpid succeeds. -/
theorem callExternal_parent_ok (strsignal : Nat → String) (x : ChildCalls) (cmd : command)
    (pid : Int) (st : Proc) (status : Nat) (hpid : 0 < pid) :
    callExternal strsignal x (some status) cmd pid st =
      ⟨[Event.fork pid, Event.signalSIGINT Disposition.SIG_IGN,
        Event.waitpid pid Disposition.SIG_IGN, Event.signalSIGINT Disposition.SIG_DFL] ++
        report strsignal status,
       { st with sigint := Disposition.SIG_DFL }, Ctl.ret⟩ := by
  have h1 : ¬ pid < 0 := by omega
  have h2 : ¬ pid = 0 := by omega
  simp [callExternal, Res.andThen, parentBranch, waitpidRet, signalSIGINT, h1, h2, hpid]

/-- The run of callExternal in the parent when waitpid fails. -/
theorem callExternal_parent_fail (strsignal : Nat → String) (x : ChildCalls) (cmd : command)
    (pid : Int) (st : Proc) (hpid : 0 < pid) :
    callExternal strsignal x none cmd pid st =
      ⟨[Event.fork pid, Event.signalSIGINT Disposition.SIG_IGN,
        Event.waitpid pid Disposition.SIG_IGN, Event.signalSIGINT Disposition.SIG_DFL,
        Event.perror "Error executing waitpid()"],
       { st with sigint := Disposition.SIG_DFL }, Ctl.exit 7⟩ := by
  have h1 : ¬ pid < 0 := by omega
  have h2 : ¬ pid = 0 := by omega
  simp [callExternal, Res.andThen, parentBranch, waitpidRet, signalSIGINT, h1, h2, hpid]

theorem errOutput_parent_ok (strsignal : Nat → String) (x : ChildCalls) (cmd : command)
    (pid : Int) (st : Proc) (status : Nat) (hpid : 0 < pid) :
    errOutput (callExternal strsignal x (some status) cmd pid st) = report strsignal status := by
  rw [callExternal_parent_ok strsignal x cmd pid st status hpid]
  simp [errOutput, writesStderr, report_all_stderr]

/-! ## Claims -/

/-- C1: in the parent branch of callExternal (fork returned a positive pid), for every wait
status a successful waitpid delivers, what is written to the error stream is: nothing when the
status is a normal exit with code 0; exactly the one line "Command returned CODE" (decimal)
when it is a normal exit with nonzero code; exactly the one line "Command killed: NAME" when it
is a termination by signal; nothing for any other status; never more than one line. -/
theorem C1_report_by_status (strsignal : Nat → String) (x : ChildCalls) (cmd : command)
    (pid : Int) (st : Proc) (status : Nat) (hpid : 0 < pid) :
    (WIFEXITED status = true → WEXITSTATUS status = 0 →
      errOutput (callExternal strsignal x (some status) cmd pid st) = []) ∧
    (WIFEXITED status = true → WEXITSTATUS status ≠ 0 →
      errOutput (callExternal strsignal x (some status) cmd pid st) =
        [Event.stderr ("Command returned " ++ toString (WEXITSTATUS status) ++ "\n")]) ∧
    (WIFSIGNALED status = true →
      errOutput (callExternal strsignal x (some status) cmd pid st) =
        [Event.stderr ("Command killed: " ++ strsignal (WTERMSIG status) ++ "\n")]) ∧
    (WIFEXITED status = false → WIFSIGNALED status = false →
      errOutput (callExternal strsignal x (some status) cmd pid st) = []) ∧
    (errOutput (callExternal strsignal x (some status) cmd pid st)).length ≤ 1 ∧
    (callExternal strsignal x (some status) cmd pid st).ctl = Ctl.ret := by
  rw [errOutput_parent_ok strsignal x cmd pid st status hpid]
  refine ⟨report_exited_zero strsignal status, report_exited_nonzero strsignal status,
    report_signaled strsignal status, report_neither strsignal status, ?_, ?_⟩
  · cases h1 : WIFEXITED status <;> cases h2 : WIFSIGNALED status
    · simp [report_neither strsignal status h1 h2]
    · simp [report_signaled strsignal status h2]
    · by_cases h3 : WEXITSTATUS status = 0
      · simp [report_exited_zero strsignal status h1 h3]
      · simp [report_exited_nonzero strsignal status h1 h3]
    · rw [not_exited_of_signaled status h2] at h1; cases h1
  · rw [callExternal_parent_ok strsignal x cmd pid st status hpid]

/-- Witness for C1: a child that exited with code 3 (wait status 0x0300) makes the parent write
exactly "Command returned 3". -/
theorem C1_report_by_status_witness :
    errOutput (callExternal (fun _ => "Interrupt") ⟨none, true, none, true, true⟩ (some 0x0300)
        ⟨["false"], none, none⟩ 1 ⟨"/", [], Disposition.SIG_DFL⟩) =
      [Event.stderr "Command returned 3\n"] :=
  (C1_report_by_status (fun _ => "Interrupt") ⟨none, true, none, true, true⟩
    ⟨["false"], none, none⟩ 1 ⟨"/", [], Disposition.SIG_DFL⟩ 0x0300 (by decide)).2.1
    (by decide) (by decide)

/-- C2 (as stated, refuted): entering callExternal with SIGINT ignored (the disposition a
shell inherits when started with SIGINT ignored), a successful fork and a successful wait, the
disposition afterwards is not the prior one. -/
theorem C2_prior_disposition_not_restored :
    (callExternal (fun _ => "Interrupt") ⟨none, true, none, true, true⟩ (some 0)
        ⟨["true"], none, none⟩ 1 ⟨"/", [], Disposition.SIG_IGN⟩).st.sigint
      ≠ Disposition.SIG_IGN := by
  decide

/-- C2 (amended): for every command and every state in force when callExternal is entered in
the parent (fork returned a positive pid), whether waitpid succeeds or fails: the single
waitpid call runs with SIGINT ignored; once it has returned, SIGINT is at the default
disposition SIG_DFL, also on the path that ends in the fatal exit 7, so it is the prior
disposition exactly when that was SIG_DFL; a failed wait ends in exit 7 and a successful
one returns; working directory and environment are untouched. -/
theorem C2_sigint_reset_to_default (strsignal : Nat → String) (x : ChildCalls)
    (wait : Option Nat) (cmd : command) (pid : Int) (st : Proc) (hpid : 0 < pid) :
    (callExternal strsignal x wait cmd pid st).st.sigint = Disposition.SIG_DFL ∧
    ((callExternal strsignal x wait cmd pid st).st.sigint = st.sigint ↔
      st.sigint = Disposition.SIG_DFL) ∧
    (callExternal strsignal x wait cmd pid st).trace.take 4 =
      [Event.fork pid, Event.signalSIGINT Disposition.SIG_IGN,
       Event.waitpid pid Disposition.SIG_IGN, Event.signalSIGINT Disposition.SIG_DFL] ∧
    (∀ q d, Event.waitpid q d ∈ (callExternal strsignal x wait cmd pid st).trace →
      d = Disposition.SIG_IGN) ∧
    (wait = none → (callExternal strsignal x wait cmd pid st).ctl = Ctl.exit 7) ∧
    (wait ≠ none → (callExternal strsignal x wait cmd pid st).ctl = Ctl.ret) ∧
    (callExternal strsignal x wait cmd pid st).st.cwd = st.cwd ∧
    (callExternal strsignal x wait cmd pid st).st.env = st.env := by
  cases wait with
  | none =>
    rw [callExternal_parent_fail strsignal x cmd pid st hpid]
    refine ⟨rfl, ?_, rfl, ?_, fun _ => rfl, fun h => absurd rfl h, rfl, rfl⟩
    · constructor
      · intro h; exact h.symm
      · intro h; exact h.symm
    · intro q d h
      simp at h
      exact h.2
  | some status =>
    rw [callExternal_parent_ok strsignal x cmd pid st status hpid]
    refine ⟨rfl, ?_, rfl, ?_, fun h => Option.noConfusion h, fun _ => rfl, rfl, rfl⟩
    · constructor
      · intro h; exact h.symm
      · intro h; exact h.symm
    · intro q d h
      simp only [List.mem_append, List.mem_cons, List.mem_singleton] at h
      rcases h with h | h
      · simp at h
        exact h.2
      · have hs := report_all_stderr strsignal status
        have hm : Event.waitpid q d ∈ (report strsignal status).filter writesStderr := by
          rw [hs]; exact h
        simp [writesStderr] at hm

/-- Witness for C2 (amended): starting with SIGINT ignored and a failing waitpid. -/
theorem C2_sigint_reset_to_default_witness :
    (callExternal (fun _ => "Interrupt") ⟨none, true, none, true, true⟩ none
        ⟨["true"], none, none⟩ 1 ⟨"/", [], Disposition.SIG_IGN⟩).st.sigint
      = Disposition.SIG_DFL :=
  (C2_sigint_reset_to_default (fun _ => "Interrupt") ⟨none, true, none, true, true⟩ none
    ⟨["true"], none, none⟩ 1 ⟨"/", [], Disposition.SIG_IGN⟩ (by decide)).1

/-- C3: in the child (fork returned 0), for every command and every combination of success
and failure of open, dup2 and execvp, callExternal performs exactly the specification's steps
in order and stops at the first failing one: the trace is the fork followed by the calls up to
and including the first failure and its diagnostic; control ends in exit 4 / 5 / 6 for a
failed open / dup2 / execvp and in the replaced image (arguments verbatim) when all succeed.
It never returns to the caller, the state is untouched, and after a failed input open nothing
else happens, in particular no file is created or truncated. -/
theorem C3_child_steps (strsignal : Nat → String) (x : ChildCalls) (wait : Option Nat)
    (cmd : command) (st : Proc) :
    (callExternal strsignal x wait cmd 0 st).trace =
      Event.fork 0 :: (runSteps (childSteps x cmd)).1 ∧
    (callExternal strsignal x wait cmd 0 st).ctl =
      (match (runSteps (childSteps x cmd)).2 with
        | some status => Ctl.exit status
        | none => Ctl.exec (arg cmd 0) cmd.args) ∧
    (callExternal strsignal x wait cmd 0 st).ctl ≠ Ctl.ret ∧
    ((callExternal strsignal x wait cmd 0 st).ctl = Ctl.exit 4 ∨
     (callExternal strsignal x wait cmd 0 st).ctl = Ctl.exit 5 ∨
     (callExternal strsignal x wait cmd 0 st).ctl = Ctl.exit 6 ∨
     (callExternal strsignal x wait cmd 0 st).ctl = Ctl.exec (arg cmd 0) cmd.args) ∧
    (callExternal strsignal x wait cmd 0 st).st = st ∧
    (∀ path, cmd.in_redir = some path → x.openIn = none →
      callExternal strsignal x wait cmd 0 st =
        ⟨[Event.fork 0, Event.openFile path [OFlag.O_RDONLY] 0o666,
          Event.perror "Error executing open()"], st, Ctl.exit 4⟩ ∧
      (callExternal strsignal x wait cmd 0 st).trace.filter createsOrTruncates = []) := by
  obtain ⟨openIn, dupIn, openOut, dupOut, execOk⟩ := x
  obtain ⟨args, inr, outr⟩ := cmd
  have hfd : ∀ fd : Nat, ¬ ((fd : Int) < 0) := fun fd => by omega
  cases inr <;> cases outr <;> cases openIn <;> cases dupIn <;> cases openOut <;>
    cases dupOut <;> cases execOk <;>
    simp [callExternal, Res.andThen, childBranch, childInput, childOutput, childExec,
      childSteps, runSteps, openRet, dup2Ret, createsOrTruncates, hfd]

/-- Witness for C3: with both redirections set and the input open failing, the child stops
after the failed open with status 4 and never touches the output file. -/
theorem C3_child_steps_witness :
    callExternal (fun _ => "Interrupt") ⟨none, true, some 3, true, true⟩ none
        ⟨["sort"], some "missing.txt", some "out.txt"⟩ 0 ⟨"/", [], Disposition.SIG_DFL⟩ =
      ⟨[Event.fork 0, Event.openFile "missing.txt" [OFlag.O_RDONLY] 0o666,
        Event.perror "Error executing open()"], ⟨"/", [], Disposition.SIG_DFL⟩, Ctl.exit 4⟩ :=
  ((C3_child_steps (fun _ => "Interrupt") ⟨none, true, some 3, true, true⟩ none
    ⟨["sort"], some "missing.txt", some "out.txt"⟩ ⟨"/", [], Disposition.SIG_DFL⟩).2.2.2.2.2
    "missing.txt" rfl rfl).1

/-! ## Facts about the dispatcher and the loop shared by several claims -/

theorem report_no_route (strsignal : Nat → String) (status : Nat) :
    (report strsignal status).filter isRoute = [] := by
  unfold report
  split <;> split <;> split <;> simp [isRoute]

theorem report_no_fork (strsignal : Nat → String) (status : Nat) :
    (report strsignal status).filter isFork = [] := by
  unfold report
  split <;> split <;> split <;> simp [isFork]

/-- In the interpreter process fork returned -1 or a positive pid. -/
theorem forkRet_cases (f : Option Nat) : forkRet f = -1 ∧ f = none ∨ 0 < forkRet f ∧ f ≠ none := by
  cases f with
  | none => exact Or.inl ⟨rfl, rfl⟩
  | some p => right; constructor
              · simp only [forkRet]; omega
              · simp

theorem callExternal_fork_failed (strsignal : Nat → String) (x : ChildCalls)
    (wait : Option Nat) (cmd : command) (st : Proc) :
    callExternal strsignal x wait cmd (-1) st =
      ⟨[Event.fork (-1), Event.perror "Error executing fork()"], st, Ctl.exit 3⟩ := by
  simp [callExternal]

theorem parentRun_no_route (strsignal : Nat → String) (e : Ext) (cmd : command) (st : Proc) :
    (parentRun strsignal e cmd st).trace.filter isRoute = [] := by
  unfold parentRun
  rcases forkRet_cases e.fork with ⟨h, _⟩ | ⟨h, _⟩
  · rw [h, callExternal_fork_failed]; simp [isRoute]
  · cases e.waitOk
    · simp only [Bool.false_eq_true, if_false]
      rw [callExternal_parent_fail strsignal e.calls cmd _ st h]; simp [isRoute]
    · simp only [if_true]
      rw [callExternal_parent_ok strsignal e.calls cmd _ st _ h]
      simp [isRoute, report_no_route]

/-- What changeDirectory does, by target and by the outcome of the directory lookup. -/
theorem changeDirectory_eq (resolve : String → String → Option String) (cmd : command)
    (st : Proc) :
    changeDirectory resolve cmd st =
      (match cdTarget cmd st with
        | none => ⟨[Event.perror "Error executing getenv()"], st, Ctl.ret⟩
        | some t =>
          match resolve st.cwd t with
          | some dir => ⟨[Event.chdir t], { st with cwd := dir }, Ctl.ret⟩
          | none => ⟨[Event.chdir t, Event.perror "Error executing chdir()"], st, Ctl.ret⟩) := by
  unfold changeDirectory cdTarget chdir
  cases arg cmd 1 with
  | none =>
    cases getenv st.env "HOME" with
    | none => rfl
    | some home => cases h : resolve st.cwd home <;> simp [h]
  | some a1 => cases h : resolve st.cwd a1 <;> simp [h]

/-- What setEnvironment does, by number of arguments and validity of the name. -/
theorem setEnvironment_eq (cmd : command) (st : Proc) :
    setEnvironment cmd st =
      (match arg cmd 1 with
        | none => ⟨[Event.perror "Error calling setenv command"], st, Ctl.ret⟩
        | some name =>
          match arg cmd 2 with
          | none =>
            if validName name then
              ⟨[Event.unsetenv name], { st with env := removeVar st.env name }, Ctl.ret⟩
            else
              ⟨[Event.unsetenv name, Event.perror "Error executing unsetenv()"], st, Ctl.ret⟩
          | some value =>
            if validName name then
              ⟨[Event.setenv name value 1],
                { st with env := (name, value) :: removeVar st.env name }, Ctl.ret⟩
            else
              ⟨[Event.setenv name value 1, Event.perror "Error executing setenv()"],
                st, Ctl.ret⟩) := by
  unfold setEnvironment unsetenv setenv
  cases arg cmd 1 with
  | none => rfl
  | some name =>
    cases arg cmd 2 with
    | none => cases h : validName name <;> simp [h]
    | some value => cases h : validName name <;> simp [h]

theorem changeDirectory_ctl (resolve : String → String → Option String) (cmd : command)
    (st : Proc) : (changeDirectory resolve cmd st).ctl = Ctl.ret := by
  rw [changeDirectory_eq]
  cases cdTarget cmd st with
  | none => rfl
  | some t => cases h : resolve st.cwd t <;> simp [h]

theorem setEnvironment_ctl (cmd : command) (st : Proc) :
    (setEnvironment cmd st).ctl = Ctl.ret := by
  rw [setEnvironment_eq]
  cases arg cmd 1 with
  | none => rfl
  | some name => cases arg cmd 2 <;> cases h : validName name <;> simp [h]

theorem changeDirectory_quiet (resolve : String → String → Option String) (cmd : command)
    (st : Proc) :
    (changeDirectory resolve cmd st).trace.filter isRoute = [] ∧
    (changeDirectory resolve cmd st).trace.filter isFork = [] := by
  rw [changeDirectory_eq]
  cases cdTarget cmd st with
  | none => simp [isRoute, isFork]
  | some t => cases h : resolve st.cwd t <;> simp [h, isRoute, isFork]

theorem setEnvironment_quiet (cmd : command) (st : Proc) :
    (setEnvironment cmd st).trace.filter isRoute = [] ∧
    (setEnvironment cmd st).trace.filter isFork = [] := by
  rw [setEnvironment_eq]
  cases arg cmd 1 with
  | none => simp [isRoute, isFork]
  | some name => cases arg cmd 2 <;> cases h : validName name <;> simp [h, isRoute, isFork]

/-- One iteration of the loop on an ordinary line whose dispatch returns. -/
theorem loop_line_ret (w : World) (isStdin : Bool) (line : String) (later : List Read)
    (i : Nat) (st : Proc) (h : (dispatch w i (w.parse_command line) st).ctl = Ctl.ret) :
    loop w isStdin (⟨some line, false, false⟩ :: later) i st =
      ⟨[Event.fgets, Event.parse_command line] ++
          (dispatch w i (w.parse_command line) st).trace ++
          (Event.free_command :: printPrompt isStdin) ++
          (loop w isStdin later (i + 1) (dispatch w i (w.parse_command line) st).st).trace,
        (loop w isStdin later (i + 1) (dispatch w i (w.parse_command line) st).st).st,
        (loop w isStdin later (i + 1) (dispatch w i (w.parse_command line) st).st).ctl⟩ := by
  simp [loop, Res.andThen, h]

/-- One iteration of the loop on an ordinary line whose dispatch ends the process. -/
theorem loop_line_stop (w : World) (isStdin : Bool) (line : String) (later : List Read)
    (i : Nat) (st : Proc) (h : (dispatch w i (w.parse_command line) st).ctl ≠ Ctl.ret) :
    loop w isStdin (⟨some line, false, false⟩ :: later) i st =
      ⟨[Event.fgets, Event.parse_command line] ++
          (dispatch w i (w.parse_command line) st).trace,
        (dispatch w i (w.parse_command line) st).st,
        (dispatch w i (w.parse_command line) st).ctl⟩ := by
  cases hc : (dispatch w i (w.parse_command line) st).ctl with
  | ret => exact absurd hc h
  | exit n => simp [loop, Res.andThen, hc]
  | exec f a => simp [loop, Res.andThen, hc]

/-- C4: the dispatcher decides by exact, case-sensitive equality on `args[0]`.  An empty
argument list does nothing (no handler, no fork); exactly "cd" enters changeDirectory and
nothing else; exactly "setenv" enters setEnvironment and nothing else; exactly "exit",
whatever arguments follow, ends the interpreter with status 0 at once, so that the loop's run
does not depend on any later line; every other first word enters callExternal and no built-in.
In each case the handler markers in the trace show that exactly one route was taken. -/
theorem C4_dispatch_exact_name (w : World) (i : Nat) (st : Proc) (a0 : String)
    (rest : List String) (inr outr : Option String) :
    (dispatch w i ⟨[], inr, outr⟩ st = ⟨[], st, Ctl.ret⟩) ∧
    (dispatch w i ⟨"cd" :: rest, inr, outr⟩ st =
        (Res.mk [Event.changeDirectory] st Ctl.ret).andThen
          (changeDirectory w.resolve ⟨"cd" :: rest, inr, outr⟩) ∧
      (dispatch w i ⟨"cd" :: rest, inr, outr⟩ st).trace.filter isRoute =
        [Event.changeDirectory] ∧
      (dispatch w i ⟨"cd" :: rest, inr, outr⟩ st).trace.filter isFork = []) ∧
    (dispatch w i ⟨"setenv" :: rest, inr, outr⟩ st =
        (Res.mk [Event.setEnvironment] st Ctl.ret).andThen
          (setEnvironment ⟨"setenv" :: rest, inr, outr⟩) ∧
      (dispatch w i ⟨"setenv" :: rest, inr, outr⟩ st).trace.filter isRoute =
        [Event.setEnvironment] ∧
      (dispatch w i ⟨"setenv" :: rest, inr, outr⟩ st).trace.filter isFork = []) ∧
    (dispatch w i ⟨"exit" :: rest, inr, outr⟩ st = ⟨[], st, Ctl.exit 0⟩ ∧
      ∀ (isStdin : Bool) (line : String) (later : List Read),
        w.parse_command line = ⟨"exit" :: rest, inr, outr⟩ →
        loop w isStdin (⟨some line, false, false⟩ :: later) i st =
          ⟨[Event.fgets, Event.parse_command line], st, Ctl.exit 0⟩) ∧
    (a0 ≠ "cd" → a0 ≠ "setenv" → a0 ≠ "exit" →
      dispatch w i ⟨a0 :: rest, inr, outr⟩ st =
        (Res.mk [Event.callExternal] st Ctl.ret).andThen
          (parentRun w.strsignal (w.ext i) ⟨a0 :: rest, inr, outr⟩) ∧
      (dispatch w i ⟨a0 :: rest, inr, outr⟩ st).trace.filter isRoute =
        [Event.callExternal]) := by
  refine ⟨by simp [dispatch, arg], ⟨?_, ?_, ?_⟩, ⟨?_, ?_, ?_⟩, ⟨?_, ?_⟩, ?_⟩
  · simp [dispatch, arg]
  · have h := (changeDirectory_quiet w.resolve ⟨"cd" :: rest, inr, outr⟩ st).1
    simp [dispatch, arg, Res.andThen, isRoute, h]
  · have h := (changeDirectory_quiet w.resolve ⟨"cd" :: rest, inr, outr⟩ st).2
    simp [dispatch, arg, Res.andThen, isFork, h]
  · simp [dispatch, arg]
  · have h := (setEnvironment_quiet ⟨"setenv" :: rest, inr, outr⟩ st).1
    simp [dispatch, arg, Res.andThen, isRoute, h]
  · have h := (setEnvironment_quiet ⟨"setenv" :: rest, inr, outr⟩ st).2
    simp [dispatch, arg, Res.andThen, isFork, h]
  · simp [dispatch, arg]
  · intro isStdin line later hp
    have hd : dispatch w i (w.parse_command line) st = ⟨[], st, Ctl.exit 0⟩ := by
      rw [hp]; simp [dispatch, arg]
    have hne : (dispatch w i (w.parse_command line) st).ctl ≠ Ctl.ret := by
      rw [hd]; simp
    rw [loop_line_stop w isStdin line later i st hne, hd]
    simp
  · intro h1 h2 h3
    have h := parentRun_no_route w.strsignal (w.ext i) ⟨a0 :: rest, inr, outr⟩ st
    constructor
    · simp [dispatch, arg, h1, h2, h3]
    · simp [dispatch, arg, h1, h2, h3, Res.andThen, isRoute, h]

/-- Witness for C4: the case variant "CD", the extension "cdx" and "exit1" are not
built-ins; each goes to callExternal. -/
theorem C4_dispatch_exact_name_witness :
    (dispatch sampleWorld 0 ⟨["CD", "/tmp"], none, none⟩ sampleProc).trace.filter isRoute =
        [Event.callExternal] ∧
    (dispatch sampleWorld 0 ⟨["cdx"], none, none⟩ sampleProc).trace.filter isRoute =
        [Event.callExternal] ∧
    (dispatch sampleWorld 0 ⟨["exit1"], none, none⟩ sampleProc).trace.filter isRoute =
        [Event.callExternal] :=
  ⟨((C4_dispatch_exact_name sampleWorld 0 sampleProc "CD" ["/tmp"] none none).2.2.2.2
      (by decide) (by decide) (by decide)).2,
   ((C4_dispatch_exact_name sampleWorld 0 sampleProc "cdx" [] none none).2.2.2.2
      (by decide) (by decide) (by decide)).2,
   ((C4_dispatch_exact_name sampleWorld 0 sampleProc "exit1" [] none none).2.2.2.2
      (by decide) (by decide) (by decide)).2⟩

/-- C5 (the code at the failing input): when fgets fails with a read error (NULL returned,
error indicator set, no end of file), the loop condition is false, the `ferror` test inside
the loop body is never reached, and the interpreter ends with status 0, exactly as it does
at end of input, rather than with status 2.  The `exit(2)` of the source is reached only when
fgets returns a line although the error indicator is set. -/
theorem C5_read_error_returns_zero (w : World) (isStdin : Bool) (later : List Read) (i : Nat)
    (st : Proc) (text : String) (eof : Bool) :
    loop w isStdin (⟨none, true, false⟩ :: later) i st = ⟨[Event.fgets], st, Ctl.exit 0⟩ ∧
    loop w isStdin (⟨none, true, false⟩ :: later) i st =
      loop w isStdin (⟨none, false, true⟩ :: later) i st ∧
    main sampleWorld 2 true [⟨none, true, false⟩] sampleProc =
      ⟨[Event.fgets], sampleProc, Ctl.exit 0⟩ ∧
    loop w isStdin (⟨some text, true, eof⟩ :: later) i st =
      ⟨[Event.fgets, Event.perror "Error executing fgets()"], st, Ctl.exit 2⟩ := by
  refine ⟨?_, ?_, ?_, ?_⟩
  · simp [loop]
  · simp [loop]
  · rfl
  · simp [loop]

/-! ## Facts about whole runs of the loop -/

/-- The parent's run when fork and waitpid both succeed. -/
theorem parentRun_ok (strsignal : Nat → String) (e : Ext) (cmd : command) (st : Proc)
    (p : Nat) (hf : e.fork = some p) (hw : e.waitOk = true) :
    parentRun strsignal e cmd st =
      ⟨[Event.fork ((p : Int) + 1), Event.signalSIGINT Disposition.SIG_IGN,
        Event.waitpid ((p : Int) + 1) Disposition.SIG_IGN,
        Event.signalSIGINT Disposition.SIG_DFL] ++
        report strsignal (waitStatus (childEnd strsignal e cmd st)),
       { st with sigint := Disposition.SIG_DFL }, Ctl.ret⟩ := by
  unfold parentRun
  rw [hf, hw]
  simp only [if_true, forkRet]
  exact callExternal_parent_ok strsignal e.calls cmd _ st _ (by omega)

/-- Every run of the loop begins by calling fgets. -/
theorem loop_starts_with_fgets (w : World) (isStdin : Bool) (reads : List Read) (i : Nat)
    (st : Proc) : ∃ t, (loop w isStdin reads i st).trace = Event.fgets :: t := by
  cases reads with
  | nil => exact ⟨[], rfl⟩
  | cons r rest =>
    obtain ⟨ret, err, eof⟩ := r
    cases ret with
    | none => exact ⟨[], rfl⟩
    | some line =>
      cases err with
      | true => exact ⟨_, rfl⟩
      | false =>
        cases eof with
        | true => exact ⟨[], rfl⟩
        | false =>
          by_cases h : (dispatch w i (w.parse_command line) st).ctl = Ctl.ret
          · rw [loop_line_ret w isStdin line rest i st h]; exact ⟨_, rfl⟩
          · rw [loop_line_stop w isStdin line rest i st h]; exact ⟨_, rfl⟩

theorem fgetsLoop_full (chars : List Char) (hnl : '\n' ∉ chars) :
    ∀ room, chars.length = room → fgetsLoop room chars = (chars, [], false) := by
  induction chars with
  | nil => intro room h; simp at h; subst h; rfl
  | cons c cs ih =>
    intro room h
    cases room with
    | zero => simp at h
    | succ r =>
      have hc : c ≠ '\n' := fun e => hnl (by rw [e]; exact List.mem_cons_self _ _)
      have hcs : '\n' ∉ cs := fun e => hnl (List.mem_cons_of_mem _ e)
      have hlen : cs.length = r := by simp only [List.length_cons] at h; omega
      simp [fgetsLoop, hc, ih hcs r hlen]

/-- A final line without newline of exactly `MAX_INPUT - 1` bytes fills the buffer: fgets
returns it without the end-of-file indicator. -/
theorem fgets_full_tail (chars : List Char) (hnl : '\n' ∉ chars)
    (hlen : chars.length = MAX_INPUT - 1) :
    fgets MAX_INPUT chars = (⟨some (String.mk chars), false, false⟩, []) := by
  have hne : chars ≠ [] := by
    intro e; rw [e] at hlen; simp [MAX_INPUT] at hlen
  unfold fgets
  rw [fgetsLoop_full chars hnl (MAX_INPUT - 1) hlen]
  simp [hne]

/-! ## The child when only execvp fails -/

theorem andThen_ctl_of_ret (r : Res) (k : Proc → Res) (h : r.ctl = Ctl.ret) :
    (r.andThen k).ctl = (k r.st).ctl := by
  simp [Res.andThen, h]

theorem andThen_st_of_ret (r : Res) (k : Proc → Res) (h : r.ctl = Ctl.ret) :
    (r.andThen k).st = (k r.st).st := by
  simp [Res.andThen, h]

theorem childInput_ok (x : ChildCalls) (cmd : command) (st : Proc)
    (hin : cmd.in_redir ≠ none → x.openIn ≠ none ∧ x.dupIn = true) :
    (childInput x cmd st).ctl = Ctl.ret ∧ (childInput x cmd st).st = st := by
  unfold childInput
  cases hr : cmd.in_redir with
  | none => exact ⟨rfl, rfl⟩
  | some path =>
    have h := hin (by rw [hr]; simp)
    obtain ⟨fd, hfd⟩ := Option.ne_none_iff_exists'.1 h.1
    have hnn : ¬ ((fd : Int) < 0) := by omega
    simp [hfd, h.2, openRet, dup2Ret, hnn]

theorem childOutput_ok (x : ChildCalls) (cmd : command) (st : Proc)
    (hout : cmd.out_redir ≠ none → x.openOut ≠ none ∧ x.dupOut = true) :
    (childOutput x cmd st).ctl = Ctl.ret ∧ (childOutput x cmd st).st = st := by
  unfold childOutput
  cases hr : cmd.out_redir with
  | none => exact ⟨rfl, rfl⟩
  | some path =>
    have h := hout (by rw [hr]; simp)
    obtain ⟨fd, hfd⟩ := Option.ne_none_iff_exists'.1 h.1
    have hnn : ¬ ((fd : Int) < 0) := by omega
    simp [hfd, h.2, openRet, dup2Ret, hnn]

/-- With working redirections and a failing execvp the child ends in exit 6. -/
theorem child_exec_failed (strsignal : Nat → String) (x : ChildCalls) (wait : Option Nat)
    (cmd : command) (st : Proc) (hexec : x.execOk = false)
    (hin : cmd.in_redir ≠ none → x.openIn ≠ none ∧ x.dupIn = true)
    (hout : cmd.out_redir ≠ none → x.openOut ≠ none ∧ x.dupOut = true) :
    (callExternal strsignal x wait cmd 0 st).ctl = Ctl.exit 6 := by
  have hi := childInput_ok x cmd st hin
  have ho := childOutput_ok x cmd (childInput x cmd st).st hout
  have h1 : ((childInput x cmd st).andThen (childOutput x cmd)).ctl = Ctl.ret := by
    rw [andThen_ctl_of_ret _ _ hi.1]; exact ho.1
  have h2 : (childBranch x cmd st).ctl = Ctl.exit 6 := by
    unfold childBranch
    rw [andThen_ctl_of_ret _ _ h1]
    simp [childExec, hexec]
  have h3 : callExternal strsignal x wait cmd 0 st =
      ⟨Event.fork 0 :: (childBranch x cmd st).trace, (childBranch x cmd st).st,
        Ctl.exit 6⟩ := by
    simp [callExternal, Res.andThen, h2]
  rw [h3]

/-- C7: for a command that is not a built-in, whose redirections (if any) are set up
successfully, whose fork and wait succeed and whose execvp fails: the child ends with
exit status 6; the interpreter writes exactly "Command returned 6" to the error stream;
dispatch returns (the interpreter does not terminate) with working directory and environment
unchanged; and the loop frees the command and goes on to call fgets for the next line. -/
theorem C7_exec_failure_is_fatal_to_child_only (w : World) (i : Nat) (st : Proc)
    (cmd : command) (a0 : String) (p : Nat)
    (h0 : arg cmd 0 = some a0) (hcd : a0 ≠ "cd") (hse : a0 ≠ "setenv") (hex : a0 ≠ "exit")
    (hfork : (w.ext i).fork = some p) (hwait : (w.ext i).waitOk = true)
    (hexec : (w.ext i).calls.execOk = false)
    (hin : cmd.in_redir ≠ none →
      (w.ext i).calls.openIn ≠ none ∧ (w.ext i).calls.dupIn = true)
    (hout : cmd.out_redir ≠ none →
      (w.ext i).calls.openOut ≠ none ∧ (w.ext i).calls.dupOut = true) :
    (childRun w.strsignal (w.ext i) cmd st).ctl = Ctl.exit 6 ∧
    errOutput (dispatch w i cmd st) = [Event.stderr "Command returned 6\n"] ∧
    (dispatch w i cmd st).ctl = Ctl.ret ∧
    (dispatch w i cmd st).st.cwd = st.cwd ∧
    (dispatch w i cmd st).st.env = st.env ∧
    (∀ (isStdin : Bool) (line : String) (later : List Read), w.parse_command line = cmd →
      (loop w isStdin (lineRead line :: later) i st).ctl =
        (loop w isStdin later (i + 1) (dispatch w i cmd st).st).ctl ∧
      ∃ t, (loop w isStdin (lineRead line :: later) i st).trace =
        [Event.fgets, Event.parse_command line] ++ (dispatch w i cmd st).trace ++
          (Event.free_command :: printPrompt isStdin) ++ Event.fgets :: t) := by
  have hchild : (childRun w.strsignal (w.ext i) cmd st).ctl = Ctl.exit 6 :=
    child_exec_failed w.strsignal (w.ext i).calls none cmd st hexec hin hout
  have hend : childEnd w.strsignal (w.ext i) cmd st = ChildEnd.exited 6 := by
    unfold childEnd; rw [hchild]
  have hrep : report w.strsignal (waitStatus (ChildEnd.exited 6)) =
      [Event.stderr "Command returned 6\n"] :=
    report_exited_nonzero w.strsignal (waitStatus (ChildEnd.exited 6)) (by decide) (by decide)
  have hd : dispatch w i cmd st =
      ⟨[Event.callExternal, Event.fork ((p : Int) + 1),
        Event.signalSIGINT Disposition.SIG_IGN,
        Event.waitpid ((p : Int) + 1) Disposition.SIG_IGN,
        Event.signalSIGINT Disposition.SIG_DFL, Event.stderr "Command returned 6\n"],
       { st with sigint := Disposition.SIG_DFL }, Ctl.ret⟩ := by
    unfold dispatch
    rw [h0]
    simp [hcd, hse, hex, Res.andThen, parentRun_ok w.strsignal (w.ext i) cmd st p hfork hwait,
      hend, hrep]
  refine ⟨hchild, ?_, ?_, ?_, ?_, ?_⟩
  · rw [hd]; simp [errOutput, writesStderr]
  · rw [hd]
  · rw [hd]
  · rw [hd]
  · intro isStdin line later hp
    have hret : (dispatch w i (w.parse_command line) st).ctl = Ctl.ret := by rw [hp, hd]
    obtain ⟨t, ht⟩ := loop_starts_with_fgets w isStdin later (i + 1) (dispatch w i cmd st).st
    unfold lineRead
    rw [loop_line_ret w isStdin line later i st hret, hp]
    exact ⟨rfl, t, by rw [ht]⟩

/-- Witness for C7: the line "nosuchprogram" on the sample machine, where execvp fails. -/
theorem C7_exec_failure_is_fatal_to_child_only_witness :
    (childRun sampleWorld.strsignal (sampleWorld.ext 0) (sampleParse "nosuchprogram\n")
        sampleProc).ctl = Ctl.exit 6 ∧
    errOutput (dispatch sampleWorld 0 (sampleParse "nosuchprogram\n") sampleProc) =
      [Event.stderr "Command returned 6\n"] :=
  ⟨(C7_exec_failure_is_fatal_to_child_only sampleWorld 0 sampleProc
      (sampleParse "nosuchprogram\n") "nosuchprogram" 99 (by decide) (by decide) (by decide)
      (by decide) rfl rfl rfl (fun h => absurd rfl h) (fun h => absurd rfl h)).1,
   (C7_exec_failure_is_fatal_to_child_only sampleWorld 0 sampleProc
      (sampleParse "nosuchprogram\n") "nosuchprogram" 99 (by decide) (by decide) (by decide)
      (by decide) rfl rfl rfl (fun h => absurd rfl h) (fun h => absurd rfl h)).2.1⟩

/-! ## Environment lookups after a change -/

theorem getenv_removeVar_self (env : List (String × String)) (name : String) :
    getenv (removeVar env name) name = none := by
  induction env with
  | nil => rfl
  | cons kv rest ih =>
    obtain ⟨k, v⟩ := kv
    by_cases h : k = name
    · simp [removeVar, h, ih]
    · simp [removeVar, getenv, h, ih]

theorem getenv_removeVar_other (env : List (String × String)) (name other : String)
    (hne : other ≠ name) : getenv (removeVar env name) other = getenv env other := by
  induction env with
  | nil => rfl
  | cons kv rest ih =>
    obtain ⟨k, v⟩ := kv
    by_cases h : k = name
    · subst h
      simp [removeVar, getenv, ih, Ne.symm hne]
    · by_cases h3 : k = other
      · subst h3
        simp [removeVar, getenv, hne]
      · simp [removeVar, getenv, h, h3, ih]

/-- The loop after a built-in or external command that returned: it frees the command,
prompts when interactive, and calls fgets for the next line. -/
theorem loop_continues (w : World) (isStdin : Bool) (line : String) (later : List Read)
    (i : Nat) (st : Proc) (h : (dispatch w i (w.parse_command line) st).ctl = Ctl.ret) :
    (loop w isStdin (lineRead line :: later) i st).ctl =
      (loop w isStdin later (i + 1) (dispatch w i (w.parse_command line) st).st).ctl ∧
    ∃ t, (loop w isStdin (lineRead line :: later) i st).trace =
      [Event.fgets, Event.parse_command line] ++
        (dispatch w i (w.parse_command line) st).trace ++
        (Event.free_command :: printPrompt isStdin) ++ Event.fgets :: t := by
  obtain ⟨t, ht⟩ := loop_starts_with_fgets w isStdin later (i + 1)
    (dispatch w i (w.parse_command line) st).st
  unfold lineRead
  rw [loop_line_ret w isStdin line later i st h]
  exact ⟨rfl, t, by rw [ht]⟩

/-- C8: for every state and every command whose first word is "cd": the target is `args[1]`
when present (later arguments play no part), otherwise the value of HOME.  With no argument
and HOME unset no chdir is attempted, exactly one error is reported and the state is
unchanged; when the directory change fails exactly one error is reported and the state is
unchanged; when it succeeds nothing is reported and the working directory is the directory
the target names.  In every case the environment is unchanged, the dispatcher returns, and
the loop goes on to read the next line. -/
theorem C8_cd_behaviour (w : World) (i : Nat) (st : Proc) (rest : List String)
    (inr outr : Option String) :
    cdTarget ⟨"cd" :: rest, inr, outr⟩ st =
      (match rest with
        | a1 :: _ => some a1
        | [] => getenv st.env "HOME") ∧
    (cdTarget ⟨"cd" :: rest, inr, outr⟩ st = none →
      dispatch w i ⟨"cd" :: rest, inr, outr⟩ st =
        ⟨[Event.changeDirectory, Event.perror "Error executing getenv()"], st, Ctl.ret⟩) ∧
    (∀ t, cdTarget ⟨"cd" :: rest, inr, outr⟩ st = some t → w.resolve st.cwd t = none →
      dispatch w i ⟨"cd" :: rest, inr, outr⟩ st =
        ⟨[Event.changeDirectory, Event.chdir t, Event.perror "Error executing chdir()"],
          st, Ctl.ret⟩) ∧
    (∀ t dir, cdTarget ⟨"cd" :: rest, inr, outr⟩ st = some t →
      w.resolve st.cwd t = some dir →
      dispatch w i ⟨"cd" :: rest, inr, outr⟩ st =
        ⟨[Event.changeDirectory, Event.chdir t], { st with cwd := dir }, Ctl.ret⟩) ∧
    (dispatch w i ⟨"cd" :: rest, inr, outr⟩ st).st.env = st.env ∧
    (dispatch w i ⟨"cd" :: rest, inr, outr⟩ st).ctl = Ctl.ret ∧
    (∀ (isStdin : Bool) (line : String) (later : List Read),
      w.parse_command line = ⟨"cd" :: rest, inr, outr⟩ →
      (loop w isStdin (lineRead line :: later) i st).ctl =
        (loop w isStdin later (i + 1) (dispatch w i ⟨"cd" :: rest, inr, outr⟩ st).st).ctl ∧
      ∃ t, (loop w isStdin (lineRead line :: later) i st).trace =
        [Event.fgets, Event.parse_command line] ++
          (dispatch w i ⟨"cd" :: rest, inr, outr⟩ st).trace ++
          (Event.free_command :: printPrompt isStdin) ++ Event.fgets :: t) := by
  have hd : dispatch w i ⟨"cd" :: rest, inr, outr⟩ st =
      ⟨Event.changeDirectory :: (changeDirectory w.resolve ⟨"cd" :: rest, inr, outr⟩ st).trace,
        (changeDirectory w.resolve ⟨"cd" :: rest, inr, outr⟩ st).st, Ctl.ret⟩ := by
    simp [dispatch, arg, Res.andThen, changeDirectory_ctl]
  have hloop : ∀ (isStdin : Bool) (line : String) (later : List Read),
      w.parse_command line = ⟨"cd" :: rest, inr, outr⟩ →
      (loop w isStdin (lineRead line :: later) i st).ctl =
        (loop w isStdin later (i + 1) (dispatch w i ⟨"cd" :: rest, inr, outr⟩ st).st).ctl ∧
      ∃ t, (loop w isStdin (lineRead line :: later) i st).trace =
        [Event.fgets, Event.parse_command line] ++
          (dispatch w i ⟨"cd" :: rest, inr, outr⟩ st).trace ++
          (Event.free_command :: printPrompt isStdin) ++ Event.fgets :: t := by
    intro isStdin line later hp
    have hret : (dispatch w i (w.parse_command line) st).ctl = Ctl.ret := by rw [hp, hd]
    have h := loop_continues w isStdin line later i st hret
    rw [hp] at h
    exact h
  refine ⟨?_, ?_, ?_, ?_, ?_, ?_, hloop⟩
  · cases rest <;> simp [cdTarget, arg]
  · intro h; rw [hd, changeDirectory_eq]; simp [h]
  · intro t h hr; rw [hd, changeDirectory_eq]; simp [h, hr]
  · intro t dir h hr; rw [hd, changeDirectory_eq]; simp [h, hr]
  · rw [hd, changeDirectory_eq]
    cases h : cdTarget ⟨"cd" :: rest, inr, outr⟩ st with
    | none => simp
    | some t => cases hr : w.resolve st.cwd t <;> simp [hr]
  · rw [hd]

/-- Witness for C8: `cd` with HOME unset reports one error and stays put; `cd /nowhere` fails
and stays put; `cd /tmp extra` goes to /tmp. -/
theorem C8_cd_behaviour_witness :
    dispatch sampleWorld 0 ⟨["cd"], none, none⟩ ⟨"/", [], Disposition.SIG_DFL⟩ =
      ⟨[Event.changeDirectory, Event.perror "Error executing getenv()"],
        ⟨"/", [], Disposition.SIG_DFL⟩, Ctl.ret⟩ ∧
    dispatch sampleWorld 0 ⟨["cd", "/nowhere"], none, none⟩ sampleProc =
      ⟨[Event.changeDirectory, Event.chdir "/nowhere",
        Event.perror "Error executing chdir()"], sampleProc, Ctl.ret⟩ ∧
    dispatch sampleWorld 0 ⟨["cd", "/tmp", "extra"], none, none⟩ sampleProc =
      ⟨[Event.changeDirectory, Event.chdir "/tmp"],
        { sampleProc with cwd := "/tmp" }, Ctl.ret⟩ :=
  ⟨(C8_cd_behaviour sampleWorld 0 ⟨"/", [], Disposition.SIG_DFL⟩ [] none none).2.1 rfl,
   (C8_cd_behaviour sampleWorld 0 sampleProc ["/nowhere"] none none).2.2.1 "/nowhere" rfl
     (by decide),
   (C8_cd_behaviour sampleWorld 0 sampleProc ["/tmp", "extra"] none none).2.2.2.1
     "/tmp" "/tmp" rfl (by decide)⟩

/-- C9 (as stated, refuted): a NAME containing `=` is rejected by the C library.  After the
line `setenv A=B c` looking up "A=B" does not yield "c"; and the line `setenv A=B` reports an
error although "A=B" was absent from the environment. -/
theorem C9_name_with_equals_sign_rejected :
    getenv (dispatch sampleWorld 0 ⟨["setenv", "A=B", "c"], none, none⟩ sampleProc).st.env
      "A=B" ≠ some "c" ∧
    errOutput (dispatch sampleWorld 0 ⟨["setenv", "A=B", "c"], none, none⟩ sampleProc) =
      [Event.perror "Error executing setenv()"] ∧
    getenv sampleProc.env "A=B" = none ∧
    errOutput (dispatch sampleWorld 0 ⟨["setenv", "A=B"], none, none⟩ sampleProc) =
      [Event.perror "Error executing unsetenv()"] := by
  refine ⟨?_, ?_, ?_, ?_⟩ <;> decide

/-- C9 (amended): for every environment and every command whose first word is "setenv".
With no further argument neither setenv nor unsetenv is called, one error is reported and the
state is unchanged.  With exactly one further argument NAME that is non-empty and free of
`=`: unsetenv is called, nothing is reported (whether or not NAME was present), NAME is absent
afterwards and every other variable is unchanged.  With two or more further arguments
NAME VALUE ... and such a NAME: setenv is called with overwrite, nothing is reported, looking
up NAME yields VALUE and every other variable is unchanged.  When NAME is empty or contains
`=` the library call fails, exactly one error is reported and the state is unchanged.
Arguments after VALUE have no effect, and `setenv NAME VALUE` followed by `setenv NAME`
leaves NAME unset. -/
theorem C9_setenv_behaviour (w : World) (i j : Nat) (st : Proc) (name value : String)
    (more : List String) (inr outr : Option String) :
    (dispatch w i ⟨["setenv"], inr, outr⟩ st =
      ⟨[Event.setEnvironment, Event.perror "Error calling setenv command"], st, Ctl.ret⟩) ∧
    (validName name = true →
      dispatch w i ⟨["setenv", name], inr, outr⟩ st =
        ⟨[Event.setEnvironment, Event.unsetenv name],
          { st with env := removeVar st.env name }, Ctl.ret⟩ ∧
      getenv (dispatch w i ⟨["setenv", name], inr, outr⟩ st).st.env name = none ∧
      (∀ other, other ≠ name →
        getenv (dispatch w i ⟨["setenv", name], inr, outr⟩ st).st.env other =
          getenv st.env other) ∧
      (dispatch w i ⟨["setenv", name], inr, outr⟩ st).st.cwd = st.cwd) ∧
    (validName name = true →
      dispatch w i ⟨"setenv" :: name :: value :: more, inr, outr⟩ st =
        ⟨[Event.setEnvironment, Event.setenv name value 1],
          { st with env := (name, value) :: removeVar st.env name }, Ctl.ret⟩ ∧
      getenv (dispatch w i ⟨"setenv" :: name :: value :: more, inr, outr⟩ st).st.env name =
        some value ∧
      (∀ other, other ≠ name →
        getenv (dispatch w i ⟨"setenv" :: name :: value :: more, inr, outr⟩ st).st.env other =
          getenv st.env other) ∧
      (dispatch w i ⟨"setenv" :: name :: value :: more, inr, outr⟩ st).st.cwd = st.cwd ∧
      getenv (dispatch w j ⟨["setenv", name], inr, outr⟩
        (dispatch w i ⟨"setenv" :: name :: value :: more, inr, outr⟩ st).st).st.env name =
        none) ∧
    (validName name = false →
      dispatch w i ⟨["setenv", name], inr, outr⟩ st =
        ⟨[Event.setEnvironment, Event.unsetenv name,
          Event.perror "Error executing unsetenv()"], st, Ctl.ret⟩ ∧
      dispatch w i ⟨"setenv" :: name :: value :: more, inr, outr⟩ st =
        ⟨[Event.setEnvironment, Event.setenv name value 1,
          Event.perror "Error executing setenv()"], st, Ctl.ret⟩) ∧
    (dispatch w i ⟨"setenv" :: name :: value :: more, inr, outr⟩ st =
      dispatch w i ⟨["setenv", name, value], inr, outr⟩ st) := by
  have hd : ∀ (k : Nat) (args : List String) (s : Proc),
      dispatch w k ⟨"setenv" :: args, inr, outr⟩ s =
        ⟨Event.setEnvironment :: (setEnvironment ⟨"setenv" :: args, inr, outr⟩ s).trace,
          (setEnvironment ⟨"setenv" :: args, inr, outr⟩ s).st, Ctl.ret⟩ := by
    intro k args s
    simp [dispatch, arg, Res.andThen, setEnvironment_ctl]
  have h1 : ∀ (k : Nat) (s : Proc), validName name = true →
      dispatch w k ⟨["setenv", name], inr, outr⟩ s =
        ⟨[Event.setEnvironment, Event.unsetenv name],
          { s with env := removeVar s.env name }, Ctl.ret⟩ := by
    intro k s hv
    rw [hd, setEnvironment_eq]; simp [arg, hv]
  have h2 : ∀ (extra : List String), validName name = true →
      dispatch w i ⟨"setenv" :: name :: value :: extra, inr, outr⟩ st =
        ⟨[Event.setEnvironment, Event.setenv name value 1],
          { st with env := (name, value) :: removeVar st.env name }, Ctl.ret⟩ := by
    intro extra hv
    rw [hd, setEnvironment_eq]; simp [arg, hv]
  have h3 : ∀ (extra : List String), validName name = false →
      dispatch w i ⟨"setenv" :: name :: value :: extra, inr, outr⟩ st =
        ⟨[Event.setEnvironment, Event.setenv name value 1,
          Event.perror "Error executing setenv()"], st, Ctl.ret⟩ := by
    intro extra hv
    rw [hd, setEnvironment_eq]; simp [arg, hv]
  refine ⟨?_, ?_, ?_, ?_, ?_⟩
  · rw [hd, setEnvironment_eq]; simp [arg]
  · intro hv
    rw [h1 i st hv]
    exact ⟨rfl, getenv_removeVar_self st.env name,
      fun other hne => getenv_removeVar_other st.env name other hne, rfl⟩
  · intro hv
    rw [h2 more hv, h1 j _ hv]
    refine ⟨rfl, by simp [getenv], ?_, rfl, ?_⟩
    · intro other hne
      simp [getenv, Ne.symm hne, getenv_removeVar_other st.env name other hne]
    · exact getenv_removeVar_self _ name
  · intro hv
    refine ⟨?_, h3 more hv⟩
    rw [hd, setEnvironment_eq]; simp [arg, hv]
  · cases hv : validName name with
    | true => rw [h2 more hv, h2 [] hv]
    | false => rw [h3 more hv, h3 [] hv]

/-- Witness for C9 (amended): `setenv FOO bar baz` makes FOO equal to "bar", and a following
`setenv FOO` leaves FOO unset. -/
theorem C9_setenv_behaviour_witness :
    getenv (dispatch sampleWorld 0 ⟨["setenv", "FOO", "bar", "baz"], none, none⟩
      sampleProc).st.env "FOO" = some "bar" ∧
    getenv (dispatch sampleWorld 1 ⟨["setenv", "FOO"], none, none⟩
      (dispatch sampleWorld 0 ⟨["setenv", "FOO", "bar", "baz"], none, none⟩
        sampleProc).st).st.env "FOO" = none :=
  ⟨((C9_setenv_behaviour sampleWorld 0 1 sampleProc "FOO" "bar" ["baz"] none none).2.2.1
      (by decide)).2.1,
   ((C9_setenv_behaviour sampleWorld 0 1 sampleProc "FOO" "bar" ["baz"] none none).2.2.1
      (by decide)).2.2.2.2⟩

/-! ## What the parent can tell from the wait status -/

end Shell
